import Mathlib

/-!
Verification of the webhook signature-validation and event-dispatch pipeline
of `src/backend/src/webhooks/notion.py`.

The embedding is executable: byte strings are lists of naturals below 256,
SHA-256 and HMAC are implemented from FIPS 180-4 / RFC 2104 exactly as
`hashlib.sha256` and `hmac.new(..., hashlib.sha256)` compute them, and the
constant-time comparison mirrors CPython's `_tscmp` (the implementation of
`hmac.compare_digest`), instrumented with an explicit step count so that the
data-independent-timing property can be stated.
-/

namespace SoberBookings

/-- Byte strings (`bytes` in Python): lists of naturals, each below 256. -/
abbrev Bytes := List Nat

/-! ## SHA-256 (FIPS 180-4), as computed by `hashlib.sha256` -/

/-- Truncation to a 32-bit word. -/
def w32 (n : Nat) : Nat := n % 4294967296

/-- Right rotation of a 32-bit word by `n` bits. -/
def rotr (x n : Nat) : Nat := w32 ((x >>> n) ||| (x <<< (32 - n)))

/-- FIPS 180-4 `Ch(x,y,z)`; the complement is XOR with the all-ones word. -/
def ch (x y z : Nat) : Nat := (x &&& y) ^^^ ((x ^^^ 4294967295) &&& z)

/-- FIPS 180-4 `Maj(x,y,z)`. -/
def maj (x y z : Nat) : Nat := (x &&& y) ^^^ (x &&& z) ^^^ (y &&& z)

/-- FIPS 180-4 `Σ₀`. -/
def bsig0 (x : Nat) : Nat := rotr x 2 ^^^ rotr x 13 ^^^ rotr x 22

/-- FIPS 180-4 `Σ₁`. -/
def bsig1 (x : Nat) : Nat := rotr x 6 ^^^ rotr x 11 ^^^ rotr x 25

/-- FIPS 180-4 `σ₀`. -/
def ssig0 (x : Nat) : Nat := rotr x 7 ^^^ rotr x 18 ^^^ (x >>> 3)

/-- FIPS 180-4 `σ₁`. -/
def ssig1 (x : Nat) : Nat := rotr x 17 ^^^ rotr x 19 ^^^ (x >>> 10)

/-- The 64 SHA-256 round constants (FIPS 180-4 section 4.2.2), in decimal. -/
def K : List Nat :=
  [1116352408, 1899447441, 3049323471, 3921009573, 961987163, 1508970993,
   2453635748, 2870763221, 3624381080, 310598401, 607225278, 1426881987,
   1925078388, 2162078206, 2614888103, 3248222580, 3835390401, 4022224774,
   264347078, 604807628, 770255983, 1249150122, 1555081692, 1996064986,
   2554220882, 2821834349, 2952996808, 3210313671, 3336571891, 3584528711,
   113926993, 338241895, 666307205, 773529912, 1294757372, 1396182291,
   1695183700, 1986661051, 2177026350, 2456956037, 2730485921, 2820302411,
   3259730800, 3345764771, 3516065817, 3600352804, 4094571909, 275423344,
   430227734, 506948616, 659060556, 883997877, 958139571, 1322822218,
   1537002063, 1747873779, 1955562222, 2024104815, 2227730452, 2361852424,
   2428436474, 2756734187, 3204031479, 3329325298]

/-- The SHA-256 initial hash value (FIPS 180-4 section 5.3.3), in decimal. -/
def H0 : List Nat :=
  [1779033703, 3144134277, 1013904242, 2773480762,
   1359893119, 2600822924, 528734635, 1541459225]

/-- One message-schedule extension step.  The accumulator holds the schedule
so far in reverse (newest word first), so `W[t-2]`, `W[t-7]`, `W[t-15]`,
`W[t-16]` sit at positions 1, 6, 14, 15. -/
def schedStep (acc : List Nat) : Nat :=
  w32 (ssig1 (acc.getD 1 0) + acc.getD 6 0 + ssig0 (acc.getD 14 0) + acc.getD 15 0)

/-- Extend the (reversed) schedule by `n` words. -/
def extendSched : Nat → List Nat → List Nat
  | 0, acc => acc
  | n + 1, acc => extendSched n (schedStep acc :: acc)

/-- The 64-word message schedule of a 16-word block. -/
def schedule (block : List Nat) : List Nat :=
  (extendSched 48 block.reverse).reverse

/-- One SHA-256 round on the working state `[a,b,c,d,e,f,g,h]`; `wk` is the
pair of the schedule word and the round constant. -/
def sha256Round (st : List Nat) (wk : Nat × Nat) : List Nat :=
  match st with
  | [a, b, c, d, e, f, g, h] =>
    let t1 := w32 (h + bsig1 e + ch e f g + wk.2 + wk.1)
    let t2 := w32 (bsig0 a + maj a b c)
    [w32 (t1 + t2), a, b, c, w32 (d + t1), e, f, g]
  | _ => st

/-- Compress one 16-word block into the running hash value. -/
def processBlock (hs : List Nat) (block : List Nat) : List Nat :=
  let final := ((schedule block).zip K).foldl sha256Round hs
  (hs.zip final).map (fun p => w32 (p.1 + p.2))

/-- Big-endian 32-bit words from bytes (trailing fragment of fewer than four
bytes is dropped; padding guarantees there is none). -/
def bytesToWords : Bytes → List Nat
  | b0 :: b1 :: b2 :: b3 :: rest =>
    (b0 * 16777216 + b1 * 65536 + b2 * 256 + b3) :: bytesToWords rest
  | _ => []

/-- Big-endian bytes of a list of 32-bit words. -/
def wordsToBytes : List Nat → Bytes
  | [] => []
  | w :: ws => (w >>> 24) % 256 :: (w >>> 16) % 256 :: (w >>> 8) % 256 :: w % 256 :: wordsToBytes ws

/-- Big-endian 64-bit length field. -/
def be8 (n : Nat) : Bytes :=
  [(n >>> 56) % 256, (n >>> 48) % 256, (n >>> 40) % 256, (n >>> 32) % 256,
   (n >>> 24) % 256, (n >>> 16) % 256, (n >>> 8) % 256, n % 256]

/-- SHA-256 padding: a `0x80` byte, zeros to 56 mod 64, then the bit length. -/
def sha256Pad (msg : Bytes) : Bytes :=
  msg ++ 0x80 :: List.replicate ((119 - msg.length % 64) % 64) 0 ++ be8 (msg.length * 8)

/-- Split padded input into 16-word blocks; `n` is the number of blocks. -/
def toBlocks : Nat → Bytes → List (List Nat)
  | 0, _ => []
  | n + 1, bs => bytesToWords (bs.take 64) :: toBlocks n (bs.drop 64)

/-- The SHA-256 digest (32 bytes) of a byte string. -/
def sha256 (msg : Bytes) : Bytes :=
  let padded := sha256Pad msg
  wordsToBytes ((toBlocks (padded.length / 64) padded).foldl processBlock H0)

/-! ## HMAC-SHA256 (RFC 2104), as computed by `hmac.new(key, msg, hashlib.sha256)` -/

/-- HMAC key normalization: a key longer than the 64-byte block is replaced by
its digest; the result is zero-padded to 64 bytes. -/
def hmacKeyPad (key : Bytes) : Bytes :=
  let k := if 64 < key.length then sha256 key else key
  k ++ List.replicate (64 - k.length) 0

/-- The HMAC-SHA256 tag (32 bytes) of `msg` under `key`. -/
def hmacSha256 (key msg : Bytes) : Bytes :=
  let k := hmacKeyPad key
  sha256 ((k.map (fun b => b ^^^ 0x5c)) ++ sha256 ((k.map (fun b => b ^^^ 0x36)) ++ msg))

/-! ## Hex encoding and UTF-8, as Python `bytes.hex()` and `str.encode` -/

/-- Lowercase hex digit of a nibble. -/
def hexChar (n : Nat) : Char := if n < 10 then Char.ofNat (48 + n) else Char.ofNat (87 + n)

/-- Two lowercase hex digits of a byte. -/
def hexByte (b : Nat) : String := String.mk [hexChar (b / 16), hexChar (b % 16)]

/-- Lowercase hex encoding of a byte string (Python's `.hexdigest()`). -/
def hexdigest : Bytes → String
  | [] => ""
  | b :: bs => hexByte b ++ hexdigest bs

/-- UTF-8 encoding of one code point. -/
def utf8Char (n : Nat) : Bytes :=
  if n < 128 then [n]
  else if n < 2048 then [192 + n / 64, 128 + n % 64]
  else if n < 65536 then [224 + n / 4096, 128 + (n / 64) % 64, 128 + n % 64]
  else [240 + n / 262144, 128 + (n / 4096) % 64, 128 + (n / 64) % 64, 128 + n % 64]

/-- Python `str.encode` with the default UTF-8 codec. -/
def encodeUtf8 (s : String) : Bytes := s.data.flatMap (fun c => utf8Char c.toNat)

/-! ## `hmac.compare_digest`

CPython's `_tscmp`: when the lengths differ the left operand is replaced by
the right one, so the loop always walks the whole right operand and the
running time depends only on its length, never on where the inputs first
differ.  The second component of the result is that step count, making the
timing behavior part of the model. -/

/-- The `_tscmp` loop: fold the OR of bytewise XORs, counting iterations. -/
def tscmpRun : List Nat → List Nat → Nat → Nat × Nat
  | x :: xs, y :: ys, acc =>
    let r := tscmpRun xs ys (acc ||| (x ^^^ y))
    (r.1, r.2 + 1)
  | _, _, acc => (acc, 0)

/-- Python `hmac.compare_digest` on byte strings, returning the verdict and the
number of loop iterations performed. -/
def compare_digest (a b : List Nat) : Bool × Nat :=
  let left := if a.length = b.length then a else b
  let r := tscmpRun left b 0
  ((a.length == b.length) && (r.1 == 0), r.2)

/-- Code points of a string; `compare_digest` on ASCII `str` arguments
compares these. -/
def strOrds (s : String) : List Nat := s.data.map Char.toNat

/-! ## `validate_signature` (src/backend/src/webhooks/notion.py, lines 12-34) -/

/-- Source function `validate_signature(payload, signature, secret)`: fail closed on empty
material, else compare the hex HMAC-SHA256 of the payload under the secret
against the presented signature in constant time. -/
def validate_signature (payload : Bytes) (signature secret : String) : Bool :=
  if payload = [] ∨ signature = "" ∨ secret = "" then
    false
  else
    let computed_signature := hexdigest (hmacSha256 (encodeUtf8 secret) payload)
    (compare_digest (strOrds computed_signature) (strOrds signature)).1

/-! ## Python values

The webhook payload is a parsed JSON document (`Dict[str, Any]`).  `Py` is
the type of such values; Python's `None` and JSON `null` are both `Py.null`
(as in CPython, where `json.loads` maps `null` to `None`).  Dicts are
insertion-ordered (`PyDict` spines), matching the ordering `json.dumps`
serializes. -/

mutual

inductive Py where
  | null
  | bool (b : Bool)
  | int (n : Int)
  | str (s : String)
  | list (xs : PyList)
  | dict (kvs : PyDict)

inductive PyList where
  | nil
  | cons (hd : Py) (tl : PyList)

inductive PyDict where
  | nil
  | cons (key : String) (val : Py) (tl : PyDict)

end

/-- Four lowercase hex digits (as in Python's `\uXXXX` escapes). -/
def hex4 (n : Nat) : String :=
  String.mk [hexChar (n / 4096 % 16), hexChar (n / 256 % 16), hexChar (n / 16 % 16), hexChar (n % 16)]

/-- One character of a JSON string under the `json.dumps` default
`ensure_ascii=True`: escape the quote, the backslash, the named control
characters, other characters outside `0x20..0x7e` as `\uXXXX` (a surrogate
pair above `0xffff`). -/
def jsonEscapeChar (c : Char) : String :=
  if c = '"' then "\\\""
  else if c = '\\' then "\\\\"
  else if c = '\n' then "\\n"
  else if c = '\t' then "\\t"
  else if c = '\r' then "\\r"
  else if c.toNat = 8 then "\\b"
  else if c.toNat = 12 then "\\f"
  else if 32 ≤ c.toNat ∧ c.toNat ≤ 126 then String.singleton c
  else if c.toNat < 65536 then "\\u" ++ hex4 c.toNat
  else "\\u" ++ hex4 (55296 + (c.toNat - 65536) / 1024) ++
       "\\u" ++ hex4 (56320 + (c.toNat - 65536) % 1024)

/-- A JSON string literal as `json.dumps` writes it. -/
def jsonQuote (s : String) : String :=
  "\"" ++ String.join (s.data.map jsonEscapeChar) ++ "\""

mutual

/-- Python `json.dumps` with its default separators (comma-space between
entries, colon-space after keys), applied by the dispatcher to re-serialize the parsed payload before signature validation. -/
def dumps : Py → String
  | .null => "null"
  | .bool true => "true"
  | .bool false => "false"
  | .int n => toString n
  | .str s => jsonQuote s
  | .list xs => "[" ++ dumpsList xs ++ "]"
  | .dict kvs => "\x7b" ++ dumpsDict kvs ++ "\x7d"

/-- The comma-space-joined serializations of the items of a JSON array. -/
def dumpsList : PyList → String
  | .nil => ""
  | .cons x .nil => dumps x
  | .cons x (.cons y tl) => dumps x ++ ", " ++ dumpsList (.cons y tl)

/-- The comma-space-joined key-colon-value entries of a JSON object. -/
def dumpsDict : PyDict → String
  | .nil => ""
  | .cons k v .nil => jsonQuote k ++ ": " ++ dumps v
  | .cons k v (.cons k2 v2 tl) =>
    jsonQuote k ++ ": " ++ dumps v ++ ", " ++ dumpsDict (.cons k2 v2 tl)

end

/-- One character of Python's `repr` of a string, given the chosen quote. -/
def pyReprCharEsc (q : Char) (c : Char) : String :=
  if c = '\\' then "\\\\"
  else if c = q then "\\" ++ String.singleton q
  else if c = '\n' then "\\n"
  else if c = '\r' then "\\r"
  else if c = '\t' then "\\t"
  else if c.toNat < 32 ∨ c.toNat = 127 then
    "\\x" ++ String.mk [hexChar (c.toNat / 16), hexChar (c.toNat % 16)]
  else String.singleton c

/-- The ASCII single-quote character. -/
def squote : Char := Char.ofNat 39

/-- Python's `repr` of a string: single-quoted, switching to double quotes
when the string contains a single quote but no double quote.  (Non-printable
characters beyond the ASCII controls are kept verbatim here; no claim
depends on them.) -/
def pyReprStr (s : String) : String :=
  let q := if s.contains squote ∧ ¬ s.contains '"' then '"' else squote
  String.singleton q ++ String.join (s.data.map (pyReprCharEsc q)) ++ String.singleton q

mutual

/-- Python's `repr` of a value. -/
def pyRepr : Py → String
  | .null => "None"
  | .bool true => "True"
  | .bool false => "False"
  | .int n => toString n
  | .str s => pyReprStr s
  | .list xs => "[" ++ pyReprList xs ++ "]"
  | .dict kvs => "\x7b" ++ pyReprDict kvs ++ "\x7d"

/-- The comma-space-joined `repr`s of the elements of a list. -/
def pyReprList : PyList → String
  | .nil => ""
  | .cons x .nil => pyRepr x
  | .cons x (.cons y tl) => pyRepr x ++ ", " ++ pyReprList (.cons y tl)

/-- The comma-space-joined key-colon-value entries of the `repr` of a dict. -/
def pyReprDict : PyDict → String
  | .nil => ""
  | .cons k v .nil => pyReprStr k ++ ": " ++ pyRepr v
  | .cons k v (.cons k2 v2 tl) =>
    pyReprStr k ++ ": " ++ pyRepr v ++ ", " ++ pyReprDict (.cons k2 v2 tl)

end

/-- Python's `str`, as an f-string interpolates a value: identity on strings,
`repr` otherwise (`None` prints as `None`). -/
def pyStr : Py → String
  | .str s => s
  | v => pyRepr v

/-- Python `payload.get(k)`: the stored value, or `None` when the key is absent. -/
def dictGet : PyDict → String → Py
  | .nil, _ => .null
  | .cons key v tl, k => if key == k then v else dictGet tl k

/-- Whether the dict carries the key at all. -/
def hasKey : PyDict → String → Bool
  | .nil, _ => false
  | .cons key _ tl, k => key == k || hasKey tl k

/-- Python `==` between a payload value and a string literal: true exactly
for the equal string (no non-string value compares equal to a `str`). -/
def pyEqStr : Py → String → Bool
  | .str s, t => s == t
  | _, _ => false

/-! ## `process_notion_webhook` (src/backend/src/webhooks/notion.py, lines 36-111) -/

/-- The process environment: `os.environ.get` of the webhook-secret variable. -/
structure Env where
  NOTION_WEBHOOK_SECRET : Option String

/-- The response envelope built on success; `data` is flattened into the
three echoed fields. -/
structure Response where
  status : String
  message : String
  facility_id : Py
  event_type : Py
  timestamp : Py

/-- The `if`/`elif` chain on the event type (lines 81-94): which handler
branch fires, if any.  Each branch only logs; unrecognized types select no
branch. -/
def dispatchBranch (event_type : Py) : Option String :=
  if pyEqStr event_type "facility.updated" then some "facility.updated"
  else if pyEqStr event_type "facility.verified" then some "facility.verified"
  else if pyEqStr event_type "facility.deleted" then some "facility.deleted"
  else none

/-- The body of the `try` block (lines 71-107): read `type` and
`facility_id`, run the dispatch chain, and build the success envelope.
Every operation in it is total (`dict.get` never raises, f-strings accept
any value), so the model always returns `Except.ok`; the `Except` codomain
records that any raised exception would be caught by the handler below and
converted to `None`. -/
def processEvent (payload : PyDict) : Except String Response :=
  let event_type := dictGet payload "type"
  let facility_id := dictGet payload "facility_id"
  let _branch := dispatchBranch event_type
  Except.ok {
    status := "success"
    message := "Processed " ++ pyStr event_type ++ " event for facility " ++ pyStr facility_id
    facility_id := facility_id
    event_type := event_type
    timestamp := dictGet payload "timestamp" }

/-- Source function `process_notion_webhook(payload, headers)`: extract the signature header
(`if not signature` rejects both an absent and an empty header), load the
secret (`if not webhook_secret` likewise), re-serialize the payload with
`json.dumps`, validate the signature, then dispatch inside a catch-all
`try`/`except` that converts any exception to `None`. -/
def process_notion_webhook (payload : PyDict) (headers : String → Option String)
    (env : Env) : Option Response :=
  match headers "Notion-Signature" with
  | none => none
  | some signature =>
    if signature = "" then none
    else
      match env.NOTION_WEBHOOK_SECRET with
      | none => none
      | some webhook_secret =>
        if webhook_secret = "" then none
        else
          let payload_bytes := encodeUtf8 (dumps (.dict payload))
          if validate_signature payload_bytes signature webhook_secret then
            match processEvent payload with
            | .ok response => some response
            | .error _ => none
          else none

/-! ## The raising path of `hmac.compare_digest` on `str` operands

CPython's `compare_digest`, given two `str` arguments, raises `TypeError`
when either operand contains a non-ASCII character; only ASCII pairs reach
the `_tscmp` loop.  In `validate_signature` the computed operand is always
ASCII hex, but the presented signature comes straight from a request header,
so a non-ASCII header value makes the comparison at line 34 raise.  The
`validate_signature` call at line 63 sits outside the `try` block that
begins at line 71, so that `TypeError` escapes `process_notion_webhook` to
its caller.  The three functions below keep this raising path;
`validate_signature` and `process_notion_webhook` above are their
no-exception projections, exact whenever the presented signature is ASCII
(see `validate_signature_exc_ascii` and `process_exc_agrees`). -/

/-- The exception the embedded code can raise: the `TypeError` from
comparing strings with non-ASCII characters. -/
inductive PyExc where
  | typeError

/-- CPython `PyUnicode_IS_ASCII`: every character is below 128. -/
def pyIsAscii (s : String) : Bool := s.data.all (fun c => decide (c.toNat < 128))

/-- Python `hmac.compare_digest` on two `str` operands: `TypeError` when
either is non-ASCII, otherwise the `_tscmp` verdict on their code points. -/
def compare_digest_str (a b : String) : Except PyExc Bool :=
  if pyIsAscii a && pyIsAscii b then
    Except.ok (compare_digest (strOrds a) (strOrds b)).1
  else
    Except.error PyExc.typeError

/-- Source function `validate_signature` with the raising path kept: the
empty-material guard still returns `False` before any comparison, but a
non-ASCII presented signature makes the comparison raise. -/
def validate_signature_exc (payload : Bytes) (signature secret : String) : Except PyExc Bool :=
  if payload = [] ∨ signature = "" ∨ secret = "" then
    Except.ok false
  else
    compare_digest_str (hexdigest (hmacSha256 (encodeUtf8 secret) payload)) signature

/-- Source function `process_notion_webhook` with the raising path kept: an
exception raised by `validate_signature` (called at line 63, outside the
`try` block that starts at line 71) escapes to the caller, while exceptions
inside the `try` block are still converted to `None`. -/
def process_notion_webhook_exc (payload : PyDict) (headers : String → Option String)
    (env : Env) : Except PyExc (Option Response) :=
  match headers "Notion-Signature" with
  | none => Except.ok none
  | some signature =>
    if signature = "" then Except.ok none
    else
      match env.NOTION_WEBHOOK_SECRET with
      | none => Except.ok none
      | some webhook_secret =>
        if webhook_secret = "" then Except.ok none
        else
          let payload_bytes := encodeUtf8 (dumps (.dict payload))
          match validate_signature_exc payload_bytes signature webhook_secret with
          | Except.error e => Except.error e
          | Except.ok false => Except.ok none
          | Except.ok true =>
            match processEvent payload with
            | Except.ok response => Except.ok (some response)
            | Except.error _ => Except.ok none

/-! ## Shape lemmas: SHA-256 always produces 32 bytes, so a hex digest is
never the empty string -/

/-- A SHA-256 round preserves the length of the working state. -/
theorem sha256Round_length (st : List Nat) (wk : Nat × Nat) :
    (sha256Round st wk).length = st.length := by
  unfold sha256Round
  split <;> simp

/-- Folding rounds preserves the length of the working state. -/
theorem foldl_sha256Round_length (l : List (Nat × Nat)) (st : List Nat) :
    (l.foldl sha256Round st).length = st.length := by
  induction l generalizing st with
  | nil => rfl
  | cons wk l ih => rw [List.foldl_cons, ih, sha256Round_length]

/-- Block compression preserves the length of the hash value. -/
theorem processBlock_length (hs block : List Nat) :
    (processBlock hs block).length = hs.length := by
  simp [processBlock, foldl_sha256Round_length]

/-- Folding block compressions preserves the length of the hash value. -/
theorem foldl_processBlock_length (blocks : List (List Nat)) (hs : List Nat) :
    (blocks.foldl processBlock hs).length = hs.length := by
  induction blocks generalizing hs with
  | nil => rfl
  | cons b blocks ih => rw [List.foldl_cons, ih, processBlock_length]

/-- Serializing words to bytes quadruples the length. -/
theorem wordsToBytes_length (ws : List Nat) : (wordsToBytes ws).length = 4 * ws.length := by
  induction ws with
  | nil => rfl
  | cons w ws ih => simp [wordsToBytes, ih]; omega

/-- SHA-256 digests are 32 bytes long. -/
theorem sha256_length (msg : Bytes) : (sha256 msg).length = 32 := by
  simp [sha256, wordsToBytes_length, foldl_processBlock_length]
  rfl

/-- HMAC-SHA256 tags are 32 bytes long. -/
theorem hmacSha256_length (key msg : Bytes) : (hmacSha256 key msg).length = 32 := by
  simp [hmacSha256, sha256_length]

/-- A byte renders as exactly two hex characters. -/
theorem hexByte_length (b : Nat) : (hexByte b).length = 2 := rfl

/-- The hex encoding of a byte string has twice its length. -/
theorem hexdigest_length (bs : Bytes) : (hexdigest bs).length = 2 * bs.length := by
  induction bs with
  | nil => rfl
  | cons b bs ih => simp [hexdigest, String.length_append, hexByte_length, ih]; omega

/-- The hex encoding of a non-empty byte string is not the empty string. -/
theorem hexdigest_ne_empty {bs : Bytes} (h : bs ≠ []) : hexdigest bs ≠ "" := by
  intro hc
  have h1 := congrArg String.length hc
  rw [hexdigest_length] at h1
  have h2 : bs.length ≠ 0 := fun h0 => h (List.length_eq_zero.mp h0)
  have h3 : String.length "" = 0 := rfl
  omega

/-- The hex HMAC tag computed by `validate_signature` is never empty. -/
theorem hexdigest_hmac_ne_empty (key msg : Bytes) : hexdigest (hmacSha256 key msg) ≠ "" := by
  apply hexdigest_ne_empty
  intro hc
  have := hmacSha256_length key msg
  rw [hc] at this
  simp at this

/-! ## The constant-time comparison: verdict and step count -/

/-- A natural-number OR vanishes exactly when both operands do. -/
theorem nat_or_eq_zero {x y : Nat} : x ||| y = 0 ↔ x = 0 ∧ y = 0 := by
  constructor
  · intro h
    constructor <;> (apply Nat.eq_of_testBit_eq; intro i)
    · have hb := congrArg (fun n => n.testBit i) h
      simp only [Nat.testBit_or, Nat.zero_testBit, Bool.or_eq_false_iff] at hb
      simp [hb.1]
    · have hb := congrArg (fun n => n.testBit i) h
      simp only [Nat.testBit_or, Nat.zero_testBit, Bool.or_eq_false_iff] at hb
      simp [hb.2]
  · rintro ⟨rfl, rfl⟩
    rfl

/-- The `_tscmp` loop on two copies of the same string leaves the
accumulator unchanged and walks the whole string. -/
theorem tscmpRun_self (xs : List Nat) (acc : Nat) : tscmpRun xs xs acc = (acc, xs.length) := by
  induction xs generalizing acc with
  | nil => rfl
  | cons x xs ih => simp [tscmpRun, ih]

/-- The `_tscmp` loop walks the shorter of its two operands, whatever their
contents. -/
theorem tscmpRun_steps (xs ys : List Nat) (acc : Nat) :
    (tscmpRun xs ys acc).2 = min xs.length ys.length := by
  induction xs generalizing ys acc with
  | nil => cases ys <;> simp [tscmpRun]
  | cons x xs ih =>
    cases ys with
    | nil => simp [tscmpRun]
    | cons y ys => simp [tscmpRun, ih]; omega

/-- On equal-length operands the `_tscmp` accumulator ends at zero exactly
when it started at zero and the operands are equal. -/
theorem tscmpRun_fst_eq_zero (xs ys : List Nat) (acc : Nat) (h : xs.length = ys.length) :
    ((tscmpRun xs ys acc).1 = 0 ↔ (acc = 0 ∧ xs = ys)) := by
  induction xs generalizing ys acc with
  | nil =>
    cases ys with
    | nil => simp [tscmpRun]
    | cons y ys => simp at h
  | cons x xs ih =>
    cases ys with
    | nil => simp at h
    | cons y ys =>
      simp only [tscmpRun]
      rw [ih ys _ (by simpa using h), nat_or_eq_zero, Nat.xor_eq_zero]
      constructor
      · rintro ⟨⟨h1, h2⟩, h3⟩
        exact ⟨h1, by rw [h2, h3]⟩
      · rintro ⟨h1, h2⟩
        obtain ⟨h3, h4⟩ := List.cons_eq_cons.mp h2
        exact ⟨⟨h1, h3⟩, h4⟩

/-- Function `compare_digest` accepts two copies of the same string, in as many steps
as the string is long. -/
theorem compare_digest_self (a : List Nat) : compare_digest a a = (true, a.length) := by
  simp [compare_digest, tscmpRun_self]

/-- Function `compare_digest` rejects distinct strings. -/
theorem compare_digest_ne {a b : List Nat} (h : a ≠ b) : (compare_digest a b).1 = false := by
  by_cases hl : a.length = b.length
  · have hz := tscmpRun_fst_eq_zero a b 0 hl
    simp only [compare_digest, if_pos hl]
    simp only [Bool.and_eq_false_iff, beq_eq_false_iff_ne, ne_eq]
    right
    intro hc
    exact h (hz.mp hc).2
  · simp [compare_digest, if_neg hl, hl]

/-- The step count of `compare_digest` is the length of its right operand:
the loop never exits early, and a length mismatch walks the right operand
against itself rather than skipping the loop. -/
theorem compare_digest_steps (a b : List Nat) : (compare_digest a b).2 = b.length := by
  by_cases hl : a.length = b.length <;> simp [compare_digest, hl, tscmpRun_steps]

/-- Code points determine the string. -/
theorem strOrds_inj {s t : String} (h : strOrds s = strOrds t) : s = t := by
  apply String.ext
  have : ∀ (l m : List Char), l.map Char.toNat = m.map Char.toNat → l = m := by
    intro l
    induction l with
    | nil =>
      intro m hm
      cases m with
      | nil => rfl
      | cons d m => simp at hm
    | cons c l ih =>
      intro m hm
      cases m with
      | nil => simp at hm
      | cons d m =>
        simp only [List.map_cons, List.cons.injEq] at hm
        have hc : c = d := by
          have := congrArg Char.ofNat hm.1
          rwa [Char.ofNat_toNat, Char.ofNat_toNat] at this
        exact hc ▸ congrArg (c :: ·) (ih m hm.2)
  exact this s.data t.data h

/-! ## Behaviour of `validate_signature` -/

/-- The signature round-trip: a non-empty payload signed with a non-empty
secret validates under that same secret. -/
theorem validate_roundtrip (payload : Bytes) (secret : String)
    (hp : payload ≠ []) (hs : secret ≠ "") :
    validate_signature payload (hexdigest (hmacSha256 (encodeUtf8 secret) payload)) secret = true := by
  have hsig := hexdigest_hmac_ne_empty (encodeUtf8 secret) payload
  simp only [validate_signature]
  rw [if_neg (by simp [hp, hsig, hs])]
  rw [compare_digest_self]

/-- A presented signature that differs (as a string) from the computed hex
HMAC tag is rejected. -/
theorem validate_mismatch (payload : Bytes) (signature secret : String)
    (h : hexdigest (hmacSha256 (encodeUtf8 secret) payload) ≠ signature) :
    validate_signature payload signature secret = false := by
  by_cases hp : payload = [] ∨ signature = "" ∨ secret = ""
  · simp [validate_signature, hp]
  · simp only [validate_signature, if_neg hp]
    exact compare_digest_ne (fun hc => h (strOrds_inj hc))

/-! ## The computed hex tag is ASCII, so only the presented signature can
make the comparison raise -/

/-- Words serialize to bytes below 256. -/
theorem wordsToBytes_mem_lt (ws : List Nat) : ∀ b ∈ wordsToBytes ws, b < 256 := by
  induction ws with
  | nil => intro b hb; simp [wordsToBytes] at hb
  | cons w ws ih =>
    intro b hb
    simp only [wordsToBytes, List.mem_cons] at hb
    rcases hb with rfl | rfl | rfl | rfl | hb
    · omega
    · omega
    · omega
    · omega
    · exact ih b hb

/-- SHA-256 digests are byte strings: every entry is below 256. -/
theorem sha256_mem_lt (msg : Bytes) : ∀ b ∈ sha256 msg, b < 256 := by
  intro b hb
  exact wordsToBytes_mem_lt _ b (by simpa [sha256] using hb)

/-- Hex digits of a nibble are ASCII. -/
theorem hexChar_toNat_lt (n : Nat) (h : n < 16) : (hexChar n).toNat < 128 := by
  have hall : ∀ m, m < 16 → (hexChar m).toNat < 128 := by decide
  exact hall n h

/-- The hex encoding of a byte is ASCII. -/
theorem pyIsAscii_hexByte (b : Nat) (h : b < 256) : pyIsAscii (hexByte b) = true := by
  simp only [pyIsAscii, hexByte, List.all_cons, List.all_nil, Bool.and_true,
    Bool.and_eq_true, decide_eq_true_eq]
  exact ⟨hexChar_toNat_lt _ (by omega), hexChar_toNat_lt _ (by omega)⟩

/-- ASCII-ness distributes over string append. -/
theorem pyIsAscii_append (s t : String) : pyIsAscii (s ++ t) = (pyIsAscii s && pyIsAscii t) := by
  simp [pyIsAscii, String.data_append, List.all_append]

/-- The hex encoding of a byte string (entries below 256) is ASCII. -/
theorem pyIsAscii_hexdigest (bs : Bytes) (h : ∀ b ∈ bs, b < 256) :
    pyIsAscii (hexdigest bs) = true := by
  induction bs with
  | nil => rfl
  | cons b bs ih =>
    rw [hexdigest, pyIsAscii_append, pyIsAscii_hexByte b (h b (by simp)),
      ih (fun x hx => h x (by simp [hx]))]
    rfl

/-- The hex HMAC tag `validate_signature` computes is always ASCII. -/
theorem pyIsAscii_hmac_hexdigest (key msg : Bytes) :
    pyIsAscii (hexdigest (hmacSha256 key msg)) = true :=
  pyIsAscii_hexdigest _ (fun b hb => sha256_mem_lt _ b (by simpa [hmacSha256] using hb))

/-- With an ASCII presented signature the raising validator agrees with the
no-exception verdict. -/
theorem validate_signature_exc_ascii (payload : Bytes) (signature secret : String)
    (hs : pyIsAscii signature = true) :
    validate_signature_exc payload signature secret
      = Except.ok (validate_signature payload signature secret) := by
  by_cases hg : payload = [] ∨ signature = "" ∨ secret = ""
  · simp [validate_signature_exc, validate_signature, hg]
  · simp [validate_signature_exc, validate_signature, hg, compare_digest_str,
      pyIsAscii_hmac_hexdigest, hs]

/-- The raising validator only ever raises the non-ASCII `TypeError`, and
only on a non-empty, non-ASCII presented signature. -/
theorem validate_signature_exc_error (payload : Bytes) (signature secret : String) (e : PyExc)
    (he : validate_signature_exc payload signature secret = Except.error e) :
    e = PyExc.typeError ∧ signature ≠ "" ∧ pyIsAscii signature = false := by
  by_cases hg : payload = [] ∨ signature = "" ∨ secret = ""
  · simp [validate_signature_exc, hg] at he
  · simp only [validate_signature_exc, if_neg hg, compare_digest_str] at he
    have hcomp := pyIsAscii_hmac_hexdigest (encodeUtf8 secret) payload
    cases hpa : pyIsAscii signature with
    | true =>
      rw [hcomp, hpa] at he
      simp at he
    | false =>
      refine ⟨?_, fun h0 => hg (Or.inr (Or.inl h0)), rfl⟩
      cases e
      rfl

/-! ## Behaviour of `process_notion_webhook` -/

/-- When the header is present and non-empty, the secret configured and
non-empty, and the signature valid over the re-serialized payload, the
dispatcher returns the success envelope built by the `try` block. -/
theorem process_success (p : PyDict) (h : String → Option String) (env : Env)
    (sig sec : String) (hsig : h "Notion-Signature" = some sig) (hne : sig ≠ "")
    (henv : env.NOTION_WEBHOOK_SECRET = some sec) (hsecne : sec ≠ "")
    (hval : validate_signature (encodeUtf8 (dumps (Py.dict p))) sig sec = true) :
    process_notion_webhook p h env = some {
      status := "success"
      message := "Processed " ++ pyStr (dictGet p "type") ++ " event for facility " ++
        pyStr (dictGet p "facility_id")
      facility_id := dictGet p "facility_id"
      event_type := dictGet p "type"
      timestamp := dictGet p "timestamp" } := by
  simp [process_notion_webhook, hsig, hne, henv, hsecne, hval, processEvent]

/-- A missing key reads as `None`. -/
theorem dictGet_of_not_hasKey : ∀ (p : PyDict) (k : String), hasKey p k = false →
    dictGet p k = Py.null
  | .nil, _, _ => rfl
  | .cons key v tl, k, h => by
    simp only [hasKey, Bool.or_eq_false_iff] at h
    simp [dictGet, h.1]
    exact dictGet_of_not_hasKey tl k h.2

/-- Exhaustive behaviour of the raising dispatcher: reject with `ok none`,
succeed with exactly the try-block value, or escape with the comparison
`TypeError` — and the escape happens only on a present, non-empty,
non-ASCII signature header. -/
theorem process_exc_cases (p : PyDict) (h : String → Option String) (env : Env) :
    process_notion_webhook_exc p h env = Except.ok none ∨
    (∃ r, process_notion_webhook_exc p h env = Except.ok (some r) ∧
      processEvent p = Except.ok r) ∨
    (process_notion_webhook_exc p h env = Except.error PyExc.typeError ∧
      ∃ s, h "Notion-Signature" = some s ∧ s ≠ "" ∧ pyIsAscii s = false) := by
  cases hh : h "Notion-Signature" with
  | none => exact Or.inl (by simp [process_notion_webhook_exc, hh])
  | some s =>
    by_cases he : s = ""
    · exact Or.inl (by simp [process_notion_webhook_exc, hh, he])
    · cases hv : env.NOTION_WEBHOOK_SECRET with
      | none => exact Or.inl (by simp [process_notion_webhook_exc, hh, he, hv])
      | some sec =>
        by_cases hsec : sec = ""
        · exact Or.inl (by simp [process_notion_webhook_exc, hh, he, hv, hsec])
        · cases hval : validate_signature_exc (encodeUtf8 (dumps (Py.dict p))) s sec with
          | error e =>
            obtain ⟨he2, hne, hasc⟩ := validate_signature_exc_error _ _ _ _ hval
            subst he2
            refine Or.inr (Or.inr ⟨?_, s, rfl, hne, hasc⟩)
            simp [process_notion_webhook_exc, hh, he, hv, hsec, hval]
          | ok b =>
            cases b with
            | false =>
              exact Or.inl (by simp [process_notion_webhook_exc, hh, he, hv, hsec, hval])
            | true =>
              refine Or.inr (Or.inl ⟨_, ?_, rfl⟩)
              simp [process_notion_webhook_exc, hh, he, hv, hsec, hval, processEvent]

/-- On requests whose signature header is ASCII the raising dispatcher
agrees with the no-exception projection `process_notion_webhook`. -/
theorem process_exc_agrees (p : PyDict) (h : String → Option String) (env : Env)
    (hascii : ∀ s, h "Notion-Signature" = some s → pyIsAscii s = true) :
    process_notion_webhook_exc p h env = Except.ok (process_notion_webhook p h env) := by
  cases hh : h "Notion-Signature" with
  | none => simp [process_notion_webhook_exc, process_notion_webhook, hh]
  | some s =>
    by_cases he : s = ""
    · simp [process_notion_webhook_exc, process_notion_webhook, hh, he]
    · cases hv : env.NOTION_WEBHOOK_SECRET with
      | none => simp [process_notion_webhook_exc, process_notion_webhook, hh, he, hv]
      | some sec =>
        by_cases hsec : sec = ""
        · simp [process_notion_webhook_exc, process_notion_webhook, hh, he, hv, hsec]
        · have hexc := validate_signature_exc_ascii (encodeUtf8 (dumps (Py.dict p))) s sec
            (hascii s hh)
          cases hval : validate_signature (encodeUtf8 (dumps (Py.dict p))) s sec with
          | false =>
            rw [hval] at hexc
            simp [process_notion_webhook_exc, process_notion_webhook, hh, he, hv, hsec,
              hexc, hval]
          | true =>
            rw [hval] at hexc
            simp [process_notion_webhook_exc, process_notion_webhook, hh, he, hv, hsec,
              hexc, hval, processEvent]

/-! ## Claims -/

/-- C1: For every non-empty byte string payload and non-empty string secret,
`validate_signature(payload, s, secret)` returns true when `s` is the
hex-encoded HMAC-SHA256 of the payload under key `secret`: the signature
round-trip succeeds. -/
theorem signature_roundtrip_validates (payload : Bytes) (secret : String)
    (hp : payload ≠ []) (hs : secret ≠ "") :
    validate_signature payload (hexdigest (hmacSha256 (encodeUtf8 secret) payload)) secret = true :=
  validate_roundtrip payload secret hp hs

/-- Witness for C1 at payload `b"hi"` and secret `"s3cr3t"`. -/
theorem signature_roundtrip_validates_witness :
    validate_signature [104, 105] (hexdigest (hmacSha256 (encodeUtf8 "s3cr3t") [104, 105]))
      "s3cr3t" = true :=
  signature_roundtrip_validates [104, 105] "s3cr3t" (by decide) (by decide)

/-- C2: `validate_signature` returns false whenever the payload, the
presented signature, or the secret is empty: it fails closed on missing
material. -/
theorem validate_fails_closed_on_empty (payload : Bytes) (signature secret : String)
    (h : payload = [] ∨ signature = "" ∨ secret = "") :
    validate_signature payload signature secret = false := by
  unfold validate_signature
  rw [if_pos h]

/-- Witness for C2: all three kinds of missing material are rejected. -/
theorem validate_fails_closed_on_empty_witness :
    validate_signature [] "sig" "key" = false ∧
    validate_signature [1] "" "key" = false ∧
    validate_signature [1] "sig" "" = false :=
  ⟨validate_fails_closed_on_empty [] "sig" "key" (Or.inl rfl),
   validate_fails_closed_on_empty [1] "" "key" (Or.inr (Or.inl rfl)),
   validate_fails_closed_on_empty [1] "sig" "" (Or.inr (Or.inr rfl))⟩

/-- C4: the comparison `validate_signature` performs is constant-time: its
step count is the full length of the presented operand — never an early
exit at the first differing position — so for candidate signatures of equal
length the comparison takes identically many steps; and on non-empty
material the verdict of `validate_signature` is exactly the verdict of that
comparison. -/
theorem constant_time_comparison :
    (∀ a b : List Nat, (compare_digest a b).2 = b.length) ∧
    (∀ a b b' : List Nat, b.length = b'.length →
      (compare_digest a b).2 = (compare_digest a b').2) ∧
    (∀ (payload : Bytes) (signature secret : String),
      ¬(payload = [] ∨ signature = "" ∨ secret = "") →
      validate_signature payload signature secret =
        (compare_digest (strOrds (hexdigest (hmacSha256 (encodeUtf8 secret) payload)))
          (strOrds signature)).1) := by
  refine ⟨compare_digest_steps, ?_, ?_⟩
  · intro a b b' h
    rw [compare_digest_steps, compare_digest_steps, h]
  · intro payload signature secret h
    simp only [validate_signature, if_neg h]

/-- Witness for C4: equal-length candidates cost equally many comparison
steps, and a concrete `validate_signature` call is the comparison's verdict. -/
theorem constant_time_comparison_witness :
    (compare_digest [1, 2, 3] [1, 2, 9]).2 = (compare_digest [1, 2, 3] [7, 2, 3]).2 ∧
    validate_signature [7] "ab" "k" =
      (compare_digest (strOrds (hexdigest (hmacSha256 (encodeUtf8 "k") [7]))) (strOrds "ab")).1 :=
  ⟨constant_time_comparison.2.1 [1, 2, 3] [1, 2, 9] [7, 2, 3] (by decide),
   constant_time_comparison.2.2 [7] "ab" "k" (by decide)⟩

/-- C5, counterexample: the secrets `"a"` and `"a\x00"` are distinct (and the
payload `b"x"` non-empty), yet a signature produced under `"a"` validates
under `"a\x00"`: HMAC zero-pads the key to the 64-byte block, so the two
secrets sign identically. -/
theorem different_secret_counterexample :
    ("a" : String) ≠ "a\u0000" ∧ ([120] : Bytes) ≠ [] ∧
    validate_signature [120] (hexdigest (hmacSha256 (encodeUtf8 "a") [120])) "a\u0000" = true := by
  refine ⟨by decide, by decide, ?_⟩
  have hk : hmacSha256 (encodeUtf8 "a") [120] = hmacSha256 (encodeUtf8 "a\u0000") [120] := by
    simp only [hmacSha256]
    have hpad : hmacKeyPad (encodeUtf8 "a") = hmacKeyPad (encodeUtf8 "a\u0000") := by decide
    rw [hpad]
  rw [hk]
  exact validate_roundtrip [120] "a\u0000" (by decide) (by decide)

/-- C5 as amended: a signature produced under `secret1` is rejected under a
non-empty `secret2` whenever the two secrets actually produce different hex
HMAC tags for that payload (secrets that agree after HMAC's zero-padding of
the key to the 64-byte block, such as `"a"` and `"a\x00"`, produce the same
tag and are the excluded case). -/
theorem different_secret_rejects (payload : Bytes) (secret1 secret2 : String)
    (_hp : payload ≠ []) (_hs2 : secret2 ≠ "")
    (hdiff : hexdigest (hmacSha256 (encodeUtf8 secret1) payload) ≠
             hexdigest (hmacSha256 (encodeUtf8 secret2) payload)) :
    validate_signature payload (hexdigest (hmacSha256 (encodeUtf8 secret1) payload)) secret2
      = false :=
  validate_mismatch payload _ secret2 (Ne.symm hdiff)

set_option maxRecDepth 40000 in
/-- Witness for the amended C5 at secrets `"a"`, `"b"` and payload `b"x"`,
with the two HMAC tags computed and compared concretely. -/
theorem different_secret_rejects_witness :
    validate_signature [120] (hexdigest (hmacSha256 (encodeUtf8 "a") [120])) "b" = false :=
  different_secret_rejects [120] "a" "b" (by decide) (by decide) (by decide)

/-- C3, counterexample: at the concrete request with signature header
`"é"` (a single non-ASCII character), empty JSON payload and secret
`"k"` configured, the dispatcher raises the comparison `TypeError` out of
`validate_signature` — called outside the `try` block — so an exception
escapes to the caller instead of any rejection result. -/
theorem dispatcher_exception_escapes :
    process_notion_webhook_exc PyDict.nil
      (fun k => if k = "Notion-Signature" then some "é" else none)
      ⟨some "k"⟩ = Except.error PyExc.typeError := by
  have hv : validate_signature_exc (encodeUtf8 (dumps (Py.dict PyDict.nil))) "é" "k"
      = Except.error PyExc.typeError := by
    unfold validate_signature_exc
    rw [if_neg (by decide)]
    simp [compare_digest_str, show pyIsAscii "é" = false from by decide]
  simp [process_notion_webhook_exc, hv]

/-- C3 as amended: the four failure modes — missing signature header,
unconfigured secret, failed validation of an ASCII signature, and any
exception inside the event-dispatch `try` block — all collapse to a `None`
result, and every response produced is the try-block value; the one
exception that can escape to the caller is the `TypeError` the constant-time
comparison raises when the presented signature header is present, non-empty
and non-ASCII, because the `validate_signature` call (line 63) sits outside
the `try` block (line 71). -/
theorem dispatcher_rejects_silently_amended (p : PyDict) (h : String → Option String)
    (env : Env) :
    (h "Notion-Signature" = none → process_notion_webhook_exc p h env = Except.ok none) ∧
    (∀ s, h "Notion-Signature" = some s → env.NOTION_WEBHOOK_SECRET = none →
      process_notion_webhook_exc p h env = Except.ok none) ∧
    (∀ s sec, h "Notion-Signature" = some s → env.NOTION_WEBHOOK_SECRET = some sec →
      pyIsAscii s = true →
      validate_signature (encodeUtf8 (dumps (Py.dict p))) s sec = false →
      process_notion_webhook_exc p h env = Except.ok none) ∧
    (∀ r, process_notion_webhook_exc p h env = Except.ok (some r) →
      processEvent p = Except.ok r) ∧
    (∀ e, process_notion_webhook_exc p h env = Except.error e →
      e = PyExc.typeError ∧
      ∃ s, h "Notion-Signature" = some s ∧ s ≠ "" ∧ pyIsAscii s = false) := by
  refine ⟨?_, ?_, ?_, ?_, ?_⟩
  · intro hs
    simp [process_notion_webhook_exc, hs]
  · intro s hs henv
    by_cases he : s = ""
    · simp [process_notion_webhook_exc, hs, he]
    · simp [process_notion_webhook_exc, hs, he, henv]
  · intro s sec hs henv hascii hval
    by_cases he : s = ""
    · simp [process_notion_webhook_exc, hs, he]
    · by_cases hsec : sec = ""
      · simp [process_notion_webhook_exc, hs, he, henv, hsec]
      · have hexc := validate_signature_exc_ascii (encodeUtf8 (dumps (Py.dict p))) s sec hascii
        rw [hval] at hexc
        simp [process_notion_webhook_exc, hs, he, henv, hsec, hexc]
  · intro r hr
    rcases process_exc_cases p h env with h1 | ⟨r', h2, h3⟩ | ⟨h4, _⟩
    · rw [h1] at hr
      exact absurd hr (by simp)
    · rw [h2] at hr
      simp only [Except.ok.injEq, Option.some.injEq] at hr
      rw [← hr]
      exact h3
    · rw [h4] at hr
      exact absurd hr (by simp)
  · intro e hr
    rcases process_exc_cases p h env with h1 | ⟨r', h2, h3⟩ | ⟨h4, h5⟩
    · rw [h1] at hr
      exact absurd hr (by simp)
    · rw [h2] at hr
      exact absurd hr (by simp)
    · refine ⟨?_, h5⟩
      cases e
      rfl

/-- Witness for the amended C3 at a request with no headers at all. -/
theorem dispatcher_rejects_silently_amended_witness :
    process_notion_webhook_exc PyDict.nil (fun _ => none) ⟨some "k"⟩ = Except.ok none :=
  (dispatcher_rejects_silently_amended PyDict.nil (fun _ => none) ⟨some "k"⟩).1 rfl

/-- C6: a validated `facility.updated` event for facility `"42"` yields the
success envelope: status `"success"`, a message containing both
`"facility.updated"` and `"42"`, `data.facility_id = "42"`, and the event
type and timestamp echoed from the input. -/
theorem facility_updated_success (p : PyDict) (h : String → Option String)
    (env : Env) (sig sec : String)
    (htype : dictGet p "type" = Py.str "facility.updated")
    (hfid : dictGet p "facility_id" = Py.str "42")
    (hsig : h "Notion-Signature" = some sig) (hne : sig ≠ "")
    (henv : env.NOTION_WEBHOOK_SECRET = some sec) (hsecne : sec ≠ "")
    (hval : validate_signature (encodeUtf8 (dumps (Py.dict p))) sig sec = true) :
    ∃ r, process_notion_webhook p h env = some r ∧
      r.status = "success" ∧
      (∃ u v, r.message = u ++ "facility.updated" ++ v) ∧
      (∃ u v, r.message = u ++ "42" ++ v) ∧
      r.facility_id = Py.str "42" ∧
      r.event_type = Py.str "facility.updated" ∧
      r.timestamp = dictGet p "timestamp" := by
  refine ⟨_, process_success p h env sig sec hsig hne henv hsecne hval,
    rfl, ?_, ?_, hfid, htype, rfl⟩
  · refine ⟨"Processed ", " event for facility 42", ?_⟩
    rw [htype, hfid]
    rfl
  · refine ⟨"Processed facility.updated event for facility ", "", ?_⟩
    rw [htype, hfid]
    rfl

/-- The payload of the worked `facility.updated` example. -/
def examplePayload : PyDict :=
  .cons "type" (.str "facility.updated") (.cons "facility_id" (.str "42")
    (.cons "timestamp" (.str "2025-01-01T00:00:00Z") .nil))

/-- The valid signature for `examplePayload` under secret `"topsecret"`. -/
def exampleSig : String :=
  hexdigest (hmacSha256 (encodeUtf8 "topsecret") (encodeUtf8 (dumps (Py.dict examplePayload))))

/-- Headers carrying the valid signature for `examplePayload`. -/
def exampleHeaders : String → Option String :=
  fun k => if k = "Notion-Signature" then some exampleSig else none

/-- Witness for C6 at the worked example. -/
theorem facility_updated_success_witness :
    ∃ r, process_notion_webhook examplePayload exampleHeaders ⟨some "topsecret"⟩ = some r ∧
      r.status = "success" ∧
      (∃ u v, r.message = u ++ "facility.updated" ++ v) ∧
      (∃ u v, r.message = u ++ "42" ++ v) ∧
      r.facility_id = Py.str "42" ∧
      r.event_type = Py.str "facility.updated" ∧
      r.timestamp = dictGet examplePayload "timestamp" :=
  facility_updated_success examplePayload exampleHeaders ⟨some "topsecret"⟩ exampleSig "topsecret"
    rfl rfl (by simp [exampleHeaders]) (hexdigest_hmac_ne_empty _ _)
    rfl (by decide)
    (validate_roundtrip (encodeUtf8 (dumps (Py.dict examplePayload))) "topsecret"
      (by decide) (by decide))

/-- C7: when the validated event's type is none of `facility.updated`,
`facility.verified`, `facility.deleted`, no handler branch fires, yet the
dispatcher still returns the success envelope. -/
theorem unrecognized_type_success (p : PyDict) (h : String → Option String)
    (env : Env) (sig sec : String) (et : Py)
    (htype : dictGet p "type" = et)
    (h1 : pyEqStr et "facility.updated" = false)
    (h2 : pyEqStr et "facility.verified" = false)
    (h3 : pyEqStr et "facility.deleted" = false)
    (hsig : h "Notion-Signature" = some sig) (hne : sig ≠ "")
    (henv : env.NOTION_WEBHOOK_SECRET = some sec) (hsecne : sec ≠ "")
    (hval : validate_signature (encodeUtf8 (dumps (Py.dict p))) sig sec = true) :
    dispatchBranch (dictGet p "type") = none ∧
    ∃ r, process_notion_webhook p h env = some r ∧
      r.status = "success" ∧ r.event_type = et ∧
      r.facility_id = dictGet p "facility_id" ∧ r.timestamp = dictGet p "timestamp" := by
  constructor
  · rw [htype]
    simp [dispatchBranch, h1, h2, h3]
  · exact ⟨_, process_success p h env sig sec hsig hne henv hsecne hval, rfl, htype, rfl, rfl⟩

/-- The payload of the unrecognized `facility.archived` example. -/
def exampleArchivedPayload : PyDict := .cons "type" (.str "facility.archived") .nil

/-- The valid signature for `exampleArchivedPayload` under `"topsecret"`. -/
def exampleArchivedSig : String :=
  hexdigest (hmacSha256 (encodeUtf8 "topsecret")
    (encodeUtf8 (dumps (Py.dict exampleArchivedPayload))))

/-- Witness for C7 at the `facility.archived` example. -/
theorem unrecognized_type_success_witness :
    dispatchBranch (dictGet exampleArchivedPayload "type") = none ∧
    ∃ r, process_notion_webhook exampleArchivedPayload
        (fun k => if k = "Notion-Signature" then some exampleArchivedSig else none)
        ⟨some "topsecret"⟩ = some r ∧
      r.status = "success" ∧ r.event_type = Py.str "facility.archived" ∧
      r.facility_id = dictGet exampleArchivedPayload "facility_id" ∧
      r.timestamp = dictGet exampleArchivedPayload "timestamp" :=
  unrecognized_type_success exampleArchivedPayload
    (fun k => if k = "Notion-Signature" then some exampleArchivedSig else none)
    ⟨some "topsecret"⟩ exampleArchivedSig "topsecret" (.str "facility.archived")
    rfl (by decide) (by decide) (by decide)
    (by simp) (hexdigest_hmac_ne_empty _ _) rfl (by decide)
    (validate_roundtrip (encodeUtf8 (dumps (Py.dict exampleArchivedPayload))) "topsecret"
      (by decide) (by decide))

/-- C8: with the process configuration held fixed, the dispatcher is a pure
function of its arguments — the embedding threads no state between calls,
so two calls with identical payload, headers and environment produce
structurally identical results. -/
theorem dispatcher_deterministic (p : PyDict) (h : String → Option String) (env : Env) :
    process_notion_webhook p h env = process_notion_webhook p h env := rfl

/-- C9: a present-but-empty signature header is rejected exactly like an
absent one — `none` under every environment (the secret is never consulted,
as the check is on falsiness), with the same observable result as the
missing-header case. -/
theorem empty_signature_header_rejected (p : PyDict) (h : String → Option String)
    (env : Env) (hs : h "Notion-Signature" = some "") :
    process_notion_webhook p h env = none ∧
    (∀ (h2 : String → Option String) (env2 : Env), h2 "Notion-Signature" = none →
      process_notion_webhook p h env = process_notion_webhook p h2 env2) := by
  have h1 : process_notion_webhook p h env = none := by
    simp [process_notion_webhook, hs]
  refine ⟨h1, fun h2 env2 hs2 => ?_⟩
  rw [h1]
  simp [process_notion_webhook, hs2]

/-- Witness for C9 with the header set to the empty string and a secret
configured. -/
theorem empty_signature_header_rejected_witness :
    process_notion_webhook PyDict.nil
      (fun k => if k = "Notion-Signature" then some "" else none)
      ⟨some "configured"⟩ = none :=
  (empty_signature_header_rejected PyDict.nil
    (fun k => if k = "Notion-Signature" then some "" else none)
    ⟨some "configured"⟩ (by simp)).1

/-- C10: a validated payload lacking the `type` or `facility_id` key
still yields the success envelope; the missing field is echoed as `None`
in the data and interpolated as `None` in the message, and nothing raises. -/
theorem missing_fields_still_success (p : PyDict) (h : String → Option String)
    (env : Env) (sig sec : String)
    (hsig : h "Notion-Signature" = some sig) (hne : sig ≠ "")
    (henv : env.NOTION_WEBHOOK_SECRET = some sec) (hsecne : sec ≠ "")
    (hval : validate_signature (encodeUtf8 (dumps (Py.dict p))) sig sec = true) :
    (hasKey p "type" = false →
      ∃ r, process_notion_webhook p h env = some r ∧ r.status = "success" ∧
        r.event_type = Py.null ∧
        r.message = "Processed None event for facility " ++ pyStr (dictGet p "facility_id")) ∧
    (hasKey p "facility_id" = false →
      ∃ r, process_notion_webhook p h env = some r ∧ r.status = "success" ∧
        r.facility_id = Py.null ∧
        r.message = "Processed " ++ pyStr (dictGet p "type") ++ " event for facility None") := by
  constructor
  · intro hm
    refine ⟨_, process_success p h env sig sec hsig hne henv hsecne hval, rfl,
      dictGet_of_not_hasKey p "type" hm, ?_⟩
    rw [dictGet_of_not_hasKey p "type" hm]
    rfl
  · intro hm
    refine ⟨_, process_success p h env sig sec hsig hne henv hsecne hval, rfl,
      dictGet_of_not_hasKey p "facility_id" hm, ?_⟩
    rw [dictGet_of_not_hasKey p "facility_id" hm]
    rw [String.append_assoc]
    rfl

/-- The payload of the missing-keys example: only a timestamp. -/
def exampleBarePayload : PyDict := .cons "timestamp" (.int 5) .nil

/-- The valid signature for `exampleBarePayload` under `"topsecret"`. -/
def exampleBareSig : String :=
  hexdigest (hmacSha256 (encodeUtf8 "topsecret") (encodeUtf8 (dumps (Py.dict exampleBarePayload))))

/-- Witness for C10 at the bare-payload example. -/
theorem missing_fields_still_success_witness :
    ∃ r, process_notion_webhook exampleBarePayload
        (fun k => if k = "Notion-Signature" then some exampleBareSig else none)
        ⟨some "topsecret"⟩ = some r ∧ r.status = "success" ∧ r.event_type = Py.null ∧
      r.message = "Processed None event for facility " ++ pyStr (dictGet exampleBarePayload "facility_id") :=
  (missing_fields_still_success exampleBarePayload
    (fun k => if k = "Notion-Signature" then some exampleBareSig else none)
    ⟨some "topsecret"⟩ exampleBareSig "topsecret"
    (by simp) (hexdigest_hmac_ne_empty _ _) rfl (by decide)
    (validate_roundtrip (encodeUtf8 (dumps (Py.dict exampleBarePayload))) "topsecret"
      (by decide) (by decide))).1 (by decide)

end SoberBookings
